import Mathlib

/-!
Shallow embedding of the quantity / unit subsystem of `link_engineering`
(`src/link_engineering/units.py` and `src/link_engineering/constants.py`).

Floating-point magnitudes are modelled as exact rationals (`ℚ`); the
logarithmic unit views (`dBw`, `dBm`, `dB` of `Gain`) are modelled over the
reals (`ℝ`) with `Real.rpow` and `Real.logb`.  Python attributes that a
constructor may or may not store on the instance are modelled as `Option`
fields (the `getset`/`reify` descriptor consults the instance dictionary
first and otherwise derives the value from the canonical magnitude).
Constructors that can raise `ValueError` return `Except String`.
-/

namespace LinkEng

/-! Constants from `src/link_engineering/constants.py`, as exact rationals. -/

def AU_M : ℚ := 149597870700

def AU_KM : ℚ := 149597870700 / 1000

def DAY_S : ℚ := 86400

def C : ℚ := 299792458

def tau : ℚ := 6283185307179586476925287 / 10 ^ 24

/-! ## Distance

`Distance.__init__(self, au=None, km=None, m=None, cm=None, mm=None)`:
an if/elif chain over the inputs in that order; each taken branch stores the
supplied value under its own name and sets the canonical `m`; if no input is
populated it raises `ValueError`.  The `getset` read path returns the stored
attribute when present and otherwise converts from the canonical `m`
(`au`: divide by `AU_M`; `km`: multiply by 0.001; `cm`: multiply by 100;
`mm`: multiply by 1000). -/

structure Distance where
  m : ℚ
  auC : Option ℚ
  kmC : Option ℚ
  cmC : Option ℚ
  mmC : Option ℚ
deriving DecidableEq

def Distance.ofAu (v : ℚ) : Distance := ⟨v * AU_M, some v, none, none, none⟩

def Distance.ofKm (v : ℚ) : Distance := ⟨v * 1000, none, some v, none, none⟩

def Distance.ofM (v : ℚ) : Distance := ⟨v, none, none, none, none⟩

def Distance.ofCm (v : ℚ) : Distance := ⟨v / 100, none, none, some v, none⟩

def Distance.ofMm (v : ℚ) : Distance := ⟨v / 1000, none, none, none, some v⟩

def Distance.init (au km m cm mm : Option ℚ) : Except String Distance :=
  match au, km, m, cm, mm with
  | some v, _, _, _, _ => .ok (Distance.ofAu v)
  | none, some v, _, _, _ => .ok (Distance.ofKm v)
  | none, none, some v, _, _ => .ok (Distance.ofM v)
  | none, none, none, some v, _ => .ok (Distance.ofCm v)
  | none, none, none, none, some v => .ok (Distance.ofMm v)
  | none, none, none, none, none =>
      .error "to construct a Distance provide au, km, or m"

def Distance.au (d : Distance) : ℚ := d.auC.getD (d.m / AU_M)

def Distance.km (d : Distance) : ℚ := d.kmC.getD (d.m * (1 / 1000))

def Distance.cm (d : Distance) : ℚ := d.cmC.getD (d.m * 100)

def Distance.mm (d : Distance) : ℚ := d.mmC.getD (d.m * 1000)

inductive DistanceUnit
  | au | km | m | cm | mm
deriving DecidableEq

def Distance.fromUnit : DistanceUnit → ℚ → Distance
  | .au, v => Distance.ofAu v
  | .km, v => Distance.ofKm v
  | .m, v => Distance.ofM v
  | .cm, v => Distance.ofCm v
  | .mm, v => Distance.ofMm v

def Distance.view : Distance → DistanceUnit → ℚ
  | d, .au => d.au
  | d, .km => d.km
  | d, .m => d.m
  | d, .cm => d.cm
  | d, .mm => d.mm

/-- The pure conversion applied by the `getset` descriptor on a cache miss:
each unit view as a function of the canonical meters alone. -/
def Distance.viewOfCanonical : ℚ → DistanceUnit → ℚ
  | x, .au => x / AU_M
  | x, .km => x * (1 / 1000)
  | x, .m => x
  | x, .cm => x * 100
  | x, .mm => x * 1000

/-! ## Frequency

`Frequency.__init__(self, Hz=None, KHz=None, MHz=None, GHz=None)`: the same
if/elif pattern with canonical `GHz`, followed unconditionally by
`self.wl = C / self.Hz` (where `self.Hz` is the stored attribute when the
`Hz` branch fired, and `GHz * 1e9` otherwise). -/

structure FreqCore where
  GHz : ℚ
  HzC : Option ℚ
  KHzC : Option ℚ
  MHzC : Option ℚ
deriving DecidableEq

def FreqCore.Hz (f : FreqCore) : ℚ := f.HzC.getD (f.GHz * 1000000000)

structure Frequency where
  GHz : ℚ
  HzC : Option ℚ
  KHzC : Option ℚ
  MHzC : Option ℚ
  wl : ℚ
deriving DecidableEq

/-- The final line of `Frequency.__init__`: `self.wl = C / self.Hz`. -/
def Frequency.finish (f : FreqCore) : Frequency :=
  ⟨f.GHz, f.HzC, f.KHzC, f.MHzC, C / f.Hz⟩

def Frequency.ofHz (v : ℚ) : Frequency :=
  Frequency.finish ⟨v / 1000000000, some v, none, none⟩

def Frequency.ofKHz (v : ℚ) : Frequency :=
  Frequency.finish ⟨v / 1000000, none, some v, none⟩

def Frequency.ofMHz (v : ℚ) : Frequency :=
  Frequency.finish ⟨v / 1000, none, none, some v⟩

def Frequency.ofGHz (v : ℚ) : Frequency :=
  Frequency.finish ⟨v, none, none, none⟩

def Frequency.init (hz khz mhz ghz : Option ℚ) : Except String Frequency :=
  match hz, khz, mhz, ghz with
  | some v, _, _, _ => .ok (Frequency.ofHz v)
  | none, some v, _, _ => .ok (Frequency.ofKHz v)
  | none, none, some v, _ => .ok (Frequency.ofMHz v)
  | none, none, none, some v => .ok (Frequency.ofGHz v)
  | none, none, none, none =>
      .error "to construct a Frequency provide Hz, KHz, MHz, or GHz"

def Frequency.Hz (f : Frequency) : ℚ := f.HzC.getD (f.GHz * 1000000000)

def Frequency.KHz (f : Frequency) : ℚ := f.KHzC.getD (f.GHz * 1000000)

def Frequency.MHz (f : Frequency) : ℚ := f.MHzC.getD (f.GHz * 1000)

inductive FrequencyUnit
  | hz | khz | mhz | ghz
deriving DecidableEq

def Frequency.fromUnit : FrequencyUnit → ℚ → Frequency
  | .hz, v => Frequency.ofHz v
  | .khz, v => Frequency.ofKHz v
  | .mhz, v => Frequency.ofMHz v
  | .ghz, v => Frequency.ofGHz v

def Frequency.view : Frequency → FrequencyUnit → ℚ
  | f, .hz => f.Hz
  | f, .khz => f.KHz
  | f, .mhz => f.MHz
  | f, .ghz => f.GHz

/-- Modelled from the spec: the `wavelengthMeters` (`wl=`) constructor input
of `Frequency`.  It is exercised by this repository's tests
(`src/tests/test_units.py::test_frequency_wl`, `src/tests/check_ant_t.py`)
but the `units.py` under `src/` predates it.  Per the spec, frequency and
wavelength are dual via the speed of light: the hertz view of a frequency
built from wavelength `w` is `C / w`. -/
def Frequency.fromWavelength (w : ℚ) : Frequency :=
  Frequency.finish ⟨C / w / 1000000000, some (C / w), none, none⟩

/-- Modelled from the spec: the five-input construction surface
`hertz | kilohertz | megahertz | gigahertz | wavelengthMeters` of
`Frequency`; the first four branches follow `Frequency.__init__` in
`src/link_engineering/units.py`, the wavelength branch is the spec-modelled
`Frequency.fromWavelength`. -/
def Frequency.initSpec (hz khz mhz ghz wlIn : Option ℚ) : Except String Frequency :=
  match hz, khz, mhz, ghz, wlIn with
  | some v, _, _, _, _ => .ok (Frequency.ofHz v)
  | none, some v, _, _, _ => .ok (Frequency.ofKHz v)
  | none, none, some v, _, _ => .ok (Frequency.ofMHz v)
  | none, none, none, some v, _ => .ok (Frequency.ofGHz v)
  | none, none, none, none, some w => .ok (Frequency.fromWavelength w)
  | none, none, none, none, none =>
      .error "to construct a Frequency provide Hz, KHz, MHz, GHz, or wl"

/-! ## Velocity

`Velocity.__init__(self, au_per_d=None, km_per_s=None)` tests `km_per_s`
first, then `au_per_d`; canonical magnitude is `au_per_d`. -/

structure Velocity where
  au_per_d : ℚ
  kmpsC : Option ℚ
deriving DecidableEq

def Velocity.ofKmPerS (v : ℚ) : Velocity := ⟨v * DAY_S / AU_KM, some v⟩

def Velocity.ofAuPerD (v : ℚ) : Velocity := ⟨v, none⟩

def Velocity.init (aupd kmps : Option ℚ) : Except String Velocity :=
  match kmps, aupd with
  | some v, _ => .ok (Velocity.ofKmPerS v)
  | none, some v => .ok (Velocity.ofAuPerD v)
  | none, none => .error "to construct a Velocity provide au_per_d or km_per_s"

def Velocity.km_per_s (v : Velocity) : ℚ := v.kmpsC.getD (v.au_per_d * (AU_KM / DAY_S))

def Velocity.m_per_s (v : Velocity) : ℚ := v.au_per_d * ((AU_M : ℚ) / DAY_S)

/-! ## Power

`Power.__init__(self, kW=None, W=None, mW=None, dBm=None, dBw=None)`: the
if/elif chain tests `kW`, `W`, `mW`, `dBw`, `dBm` in that order (note:
`dBw` before `dBm`, opposite to the signature).  Canonical magnitude is
Watts.  `dBw` uses the forward/inverse pair `10^(x/10)` and
`10*log10(W)`; `dBm` uses `10^((x-30)/10)` and `10*log10(W)+30`.  The
zero-input error message is the source's own (it misnames the type as
`Frequency` and lists `dB`).  Modelled over `ℝ` because of the logarithms. -/

structure Power where
  W : ℝ
  kWC : Option ℝ
  mWC : Option ℝ
  dBwC : Option ℝ
  dBmC : Option ℝ

noncomputable def Power.ofkW (v : ℝ) : Power := ⟨v * 1000, some v, none, none, none⟩

noncomputable def Power.ofW (v : ℝ) : Power := ⟨v, none, none, none, none⟩

noncomputable def Power.ofmW (v : ℝ) : Power := ⟨v / 1000, none, some v, none, none⟩

noncomputable def Power.ofdBw (v : ℝ) : Power :=
  ⟨(10 : ℝ) ^ (v / 10), none, none, some v, none⟩

noncomputable def Power.ofdBm (v : ℝ) : Power :=
  ⟨(10 : ℝ) ^ ((v - 30) / 10), none, none, none, some v⟩

noncomputable def Power.init (kW W mW dBm dBw : Option ℝ) : Except String Power :=
  match kW, W, mW, dBw, dBm with
  | some v, _, _, _, _ => .ok (Power.ofkW v)
  | none, some v, _, _, _ => .ok (Power.ofW v)
  | none, none, some v, _, _ => .ok (Power.ofmW v)
  | none, none, none, some v, _ => .ok (Power.ofdBw v)
  | none, none, none, none, some v => .ok (Power.ofdBm v)
  | none, none, none, none, none =>
      .error "to construct a Frequency provide kW, W, mW, or dB"

noncomputable def Power.kW (p : Power) : ℝ := p.kWC.getD (p.W * (1 / 1000))

noncomputable def Power.mW (p : Power) : ℝ := p.mWC.getD (p.W * 1000)

noncomputable def Power.dBw (p : Power) : ℝ := p.dBwC.getD (10 * Real.logb 10 p.W)

noncomputable def Power.dBm (p : Power) : ℝ := p.dBmC.getD (10 * Real.logb 10 p.W + 30)

/-! ## Angle

`Angle.__init__(self, angle=None, radians=None, degrees=None, hours=None,
preference=None, signed=False)`: the value branches are an if/elif chain
with NO else branch (zero populated value inputs leave `self.radians`
unset); the `degrees` and `hours` branches additionally store the raw value
as the `_degrees` / `_hours` instance attribute.  `preference` defaults to
`'hours'` exactly when the `hours=` argument was supplied (whether or not
its branch fired) and to `'degrees'` otherwise. -/

structure Angle where
  radians : Option ℚ
  degC : Option ℚ
  hrsC : Option ℚ
  preference : String
  signed : Bool
deriving DecidableEq

def Angle.init (angle : Option Angle) (radians degrees hours : Option ℚ)
    (preference : Option String) (signed : Bool) : Angle :=
  let rdh : Option ℚ × Option ℚ × Option ℚ :=
    match angle, radians, degrees, hours with
    | some b, _, _, _ => (b.radians, none, none)
    | none, some r, _, _ => (some r, none, none)
    | none, none, some d, _ => (some (d / 360 * tau), some d, none)
    | none, none, none, some h => (some (h / 24 * tau), none, some h)
    | none, none, none, none => (none, none, none)
  { radians := rdh.1, degC := rdh.2.1, hrsC := rdh.2.2,
    preference := preference.getD (if hours.isSome then "hours" else "degrees"),
    signed := signed }

/-- Python `name.startswith('h')`. -/
def startsWithH (s : String) : Bool :=
  match s.data with
  | [] => false
  | c :: _ => c.toNat == 104

/-- Python `'_h' in name`: some position holds the consecutive pair
underscore (code point 95) then `h` (code point 104). -/
def containsUnderscoreH : List Char → Bool
  | [] => false
  | a :: rest =>
      (a.toNat == 95 && (match rest with
                         | b :: _ => b.toNat == 104
                         | [] => false))
      || containsUnderscoreH rest

/-- `WrongUnitError.__init__` message construction, transcribed from
`src/link_engineering/units.py` lines 579-590. -/
def wrongUnitMessage (name : String) : String :=
  let unit := if startsWithH name || containsUnderscoreH name.data
              then "hours" else "degrees"
  let usual := if unit == "degrees" then "hours" else "degrees"
  let base := "this angle is usually expressed in " ++ usual ++ ", not " ++ unit
              ++ "; if you want to use " ++ unit ++ " anyway,"
  if name == unit then base ++ " then please use the attribute _" ++ unit
  else base ++ " then call " ++ name ++ "() with warn=False"

/-- The unguarded `_degrees` attribute: the value stored at construction if
any, else the `reify` computation `radians * 360 / tau`. -/
def Angle.udegrees (a : Angle) : Option ℚ :=
  a.degC <|> a.radians.map (fun r => r * 360 / tau)

/-- The unguarded `_hours` attribute: the value stored at construction if
any, else the `reify` computation `radians * 24 / tau`. -/
def Angle.uhours (a : Angle) : Option ℚ :=
  a.hrsC <|> a.radians.map (fun r => r * 24 / tau)

/-- The guarded `Angle.degrees` accessor. -/
def Angle.degreesView (a : Angle) : Except String (Option ℚ) :=
  if a.preference != "degrees" then .error (wrongUnitMessage "degrees")
  else .ok a.udegrees

/-- The guarded `Angle.hours` accessor. -/
def Angle.hoursView (a : Angle) : Except String (Option ℚ) :=
  if a.preference != "hours" then .error (wrongUnitMessage "hours")
  else .ok a.uhours

/-! ## Rate and AngleRate -/

structure Rate where
  per_day : ℚ
deriving DecidableEq

def Rate.from_per_day (v : ℚ) : Rate := ⟨v⟩

def Rate.per_hour (r : Rate) : ℚ := r.per_day / 24

def Rate.per_minute (r : Rate) : ℚ := r.per_day / 1440

def Rate.per_second (r : Rate) : ℚ := r.per_day / 86400

structure AngleRate where
  radians_per_day : ℚ
deriving DecidableEq

def AngleRate.from_radians_per_day (v : ℚ) : AngleRate := ⟨v⟩

def AngleRate.radians (ar : AngleRate) : Rate :=
  Rate.from_per_day ar.radians_per_day

def AngleRate.degrees (ar : AngleRate) : Rate :=
  Rate.from_per_day (ar.radians_per_day / tau * 360)

def AngleRate.arcminutes (ar : AngleRate) : Rate :=
  Rate.from_per_day (ar.radians_per_day / tau * 21600)

def AngleRate.arcseconds (ar : AngleRate) : Rate :=
  Rate.from_per_day (ar.radians_per_day / tau * 1296000)

def AngleRate.mas (ar : AngleRate) : Rate :=
  Rate.from_per_day (ar.radians_per_day / tau * 1296000000)

/-! ## Sexagesimal decomposition and formatting -/

/-- Result of `_sexagesimalize_to_int`. -/
structure Sexa where
  sign : ℤ
  whole : ℕ
  minutes : ℕ
  seconds : ℕ
  fraction : ℕ
deriving DecidableEq

/-- `_sexagesimalize_to_int(value, places)`:
`n = int((power * 3600 * value + 0.5) // 1.0)` (floor, i.e. half-up
rounding), `sign = np.sign(n)`, then `divmod` successively by
`power = 10^places`, 60 and 60 on `abs(n)`. -/
def sexagesimalizeToInt (value : ℚ) (places : ℕ) : Sexa :=
  let power : ℕ := 10 ^ places
  let n : ℤ := Int.floor ((power : ℚ) * 3600 * value + 1 / 2)
  let sign := Int.sign n
  let m0 := n.natAbs
  let fraction := m0 % power
  let n1 := m0 / power
  let seconds := n1 % 60
  let n2 := n1 / 60
  let minutes := n2 % 60
  let whole := n2 / 60
  ⟨sign, whole, minutes, seconds, fraction⟩

/-- `_sexagesimalize_to_float(value)`: `sign = np.sign(value)`,
`n = abs(value)`, `minutes, seconds = divmod(n * 3600.0, 60.0)`,
`units, minutes = divmod(minutes, 60.0)`; returns
`(sign, units, minutes, seconds)`. -/
def sexagesimalizeToFloat (value : ℚ) : ℚ × ℚ × ℚ × ℚ :=
  let sign : ℚ := if 0 < value then 1 else if value < 0 then -1 else 0
  let n := |value|
  let minutes0 : ℚ := (Int.floor (n * 3600 / 60) : ℚ)
  let seconds : ℚ := n * 3600 - 60 * minutes0
  let units : ℚ := (Int.floor (minutes0 / 60) : ℚ)
  let minutes : ℚ := minutes0 - 60 * units
  (sign, units, minutes, seconds)

/-- Zero-padding to a minimum width, as Python's format spec `{n:0w}`. -/
def padZeros (w : ℕ) (n : ℕ) : String :=
  let s := toString n
  if s.length < w then String.mk (List.replicate (w - s.length) '0') ++ s else s

/-- The `_dfmt` template `'{0}{1:02}deg {2:02}\' {3:02}.{4:0{5}}"'`. -/
def dfmtOf (sign : String) (h m s frac places : ℕ) : String :=
  sign ++ padZeros 2 h ++ "deg " ++ padZeros 2 m ++ "\x27 " ++ padZeros 2 s
       ++ "." ++ padZeros places frac ++ "\""

/-- `_sfmt(_dfmt, value, places)` for a non-NaN scalar. -/
def sfmtD (value : ℚ) (places : ℕ) : String :=
  let r := sexagesimalizeToInt value places
  let sign := if r.sign < 0 then "-" else ""
  dfmtOf sign r.whole r.minutes r.seconds r.fraction places

/-- `Angle.dstr(places, warn=True, format=None)` for a scalar unsigned
angle: guarded on `preference`, then `_sfmt` of the `_degrees` attribute. -/
def Angle.dstr (a : Angle) (places : ℕ) : Except String (Option String) :=
  if a.preference != "degrees" then .error (wrongUnitMessage "dstr")
  else .ok (a.udegrees.map (fun d => sfmtD d places))

/-! ## `Unit.__getitem__` / `UnpackingError`

`Unit.__getitem__` raises `UnpackingError` with a message built from the
attributes `k` of the class dictionary such that `k[0].islower()` and the
value is a `getset` or `reify` descriptor, sorted, each rendered as
`'    <classname lowercased>.<attr>'`.  `__iter__` is the same function.
The class dictionaries below transcribe the relevant entries of each class
in `src/link_engineering/units.py`. -/

inductive DictEntry
  | getsetD | reifyD | methodD | classattrD
deriving DecidableEq

def isUnitDescriptor : DictEntry → Bool
  | .getsetD => true
  | .reifyD => true
  | _ => false

/-- Python `c.islower()` for the ASCII attribute names at hand. -/
def charIsLower (c : Char) : Bool := 97 ≤ c.toNat && c.toNat ≤ 122

def firstIsLower (s : String) : Bool :=
  match s.data with
  | [] => false
  | c :: _ => charIsLower c

structure ClassInfo where
  name : String
  dict : List (String × DictEntry)

/-- Python string `<`: lexicographic comparison by code point. -/
def charListLt : List Char → List Char → Bool
  | [], [] => false
  | [], _ :: _ => true
  | _ :: _, [] => false
  | a :: as, b :: bs =>
      if a.toNat < b.toNat then true
      else if b.toNat < a.toNat then false
      else charListLt as bs

def strLe (a b : String) : Bool := !(charListLt b.data a.data)

def insortStr (s : String) : List String → List String
  | [] => [s]
  | t :: ts => if strLe s t then s :: t :: ts else t :: insortStr s ts

def sortStrings (l : List String) : List String := l.foldr insortStr []

def listedAttrs (c : ClassInfo) : List String :=
  sortStrings ((c.dict.filter (fun p => firstIsLower p.1 && isUnitDescriptor p.2)).map Prod.fst)

def unitAccessorNames (c : ClassInfo) : List String :=
  sortStrings ((c.dict.filter (fun p => isUnitDescriptor p.2)).map Prod.fst)

/-- Python `str.lower()` for the ASCII class names at hand. -/
def charToLower (c : Char) : Char :=
  if 65 ≤ c.toNat && c.toNat ≤ 90 then Char.ofNat (c.toNat + 32) else c

def strToLower (s : String) : String := ⟨s.data.map charToLower⟩

def unpackingMessage (c : ClassInfo) : String :=
  let examples := (listedAttrs c).map (fun a => "    " ++ strToLower c.name ++ "." ++ a)
  "to use this " ++ c.name ++ ", ask for its value in a particular unit:\n\n"
    ++ String.intercalate "\n" examples

def Unit.getitem (c : ClassInfo) : Except String PUnit :=
  .error (unpackingMessage c)

def Unit.iter (c : ClassInfo) : Except String PUnit := Unit.getitem c

def distanceClass : ClassInfo :=
  { name := "Distance",
    dict := [("_warned", .classattrD), ("au", .getsetD), ("km", .getsetD),
             ("m", .getsetD), ("cm", .getsetD), ("mm", .getsetD),
             ("length", .methodD), ("light_seconds", .methodD)] }

def frequencyClass : ClassInfo :=
  { name := "Frequency",
    dict := [("_warned", .classattrD), ("Hz", .getsetD), ("KHz", .getsetD),
             ("MHz", .getsetD), ("GHz", .getsetD)] }

def powerClass : ClassInfo :=
  { name := "Power",
    dict := [("_warned", .classattrD), ("kW", .getsetD), ("W", .getsetD),
             ("mW", .getsetD), ("dBw", .getsetD), ("dBm", .getsetD)] }

def velocityClass : ClassInfo :=
  { name := "Velocity",
    dict := [("_warned", .classattrD), ("au_per_d", .getsetD),
             ("km_per_s", .getsetD), ("m_per_s", .getsetD)] }

def angleClass : ClassInfo :=
  { name := "Angle",
    dict := [("radians", .getsetD), ("_hours", .reifyD), ("_degrees", .reifyD),
             ("hours", .reifyD), ("degrees", .reifyD),
             ("from_degrees", .classattrD), ("arcminutes", .methodD),
             ("arcseconds", .methodD), ("mas", .methodD), ("hms", .methodD),
             ("signed_hms", .methodD), ("hstr", .methodD), ("dms", .methodD),
             ("signed_dms", .methodD), ("dstr", .methodD)] }

/-! ## Gain and Temperature

These two quantity types are exercised by this repository's tests
(`src/tests/test_units.py`, `src/tests/test_link_eng.py` construct
`Gain(a=...)`, `Gain(dB=...)`, `Temperature(k=...)`, `Temperature(c=...)`,
`Temperature(f=...)`) but are absent from the `units.py` under `src/`. -/

/-- Modelled from the spec: the `Gain` quantity type, missing from
`src/link_engineering/units.py`.  Canonical magnitude is the linear ratio
`a`; the `dB` view is the logarithmic pair `a = 10^(dB/10)`,
`dB = 10*log10(a)`. -/
structure Gain where
  a : ℝ
  dBC : Option ℝ

noncomputable def Gain.ofLinear (v : ℝ) : Gain := ⟨v, none⟩

noncomputable def Gain.ofdB (v : ℝ) : Gain := ⟨(10 : ℝ) ^ (v / 10), some v⟩

/-- Modelled from the spec: `Gain` construction from exactly one of
`linearRatio` (`a=`) or `decibels` (`dB=`); zero or two populated inputs
fail with the InvalidConstruction message enumerating the accepted names. -/
noncomputable def Gain.init (a dB : Option ℝ) : Except String Gain :=
  match a, dB with
  | some v, none => .ok (Gain.ofLinear v)
  | none, some v => .ok (Gain.ofdB v)
  | _, _ => .error "to construct a Gain provide exactly one of a or dB"

noncomputable def Gain.dB (g : Gain) : ℝ := g.dBC.getD (10 * Real.logb 10 g.a)

/-- Modelled from the spec: the `Temperature` quantity type, missing from
`src/link_engineering/units.py`.  Canonical magnitude is Kelvin `k`; views
are `c = k - 273.15` and `f = c * 9/5 + 32`. -/
structure Temperature where
  k : ℚ
  cC : Option ℚ
  fC : Option ℚ
deriving DecidableEq

def Temperature.ofK (v : ℚ) : Temperature := ⟨v, none, none⟩

def Temperature.ofC (v : ℚ) : Temperature := ⟨v + 27315 / 100, some v, none⟩

def Temperature.ofF (v : ℚ) : Temperature :=
  ⟨(v - 32) * 5 / 9 + 27315 / 100, none, some v⟩

/-- Modelled from the spec: `Temperature` construction from exactly one of
`kelvin` (`k=`), `celsius` (`c=`) or `fahrenheit` (`f=`). -/
def Temperature.init (k c f : Option ℚ) : Except String Temperature :=
  match k, c, f with
  | some v, none, none => .ok (Temperature.ofK v)
  | none, some v, none => .ok (Temperature.ofC v)
  | none, none, some v => .ok (Temperature.ofF v)
  | _, _, _ => .error "to construct a Temperature provide exactly one of k, c, or f"

def Temperature.c (t : Temperature) : ℚ := t.cC.getD (t.k - 27315 / 100)

def Temperature.f (t : Temperature) : ℚ := t.fC.getD ((t.k - 27315 / 100) * 9 / 5 + 32)

/-! ## Two-populated-input constructions

To state how each constructor behaves when exactly two of its keyword
inputs are populated, each unit gets its position in the if/elif chain of
the corresponding `__init__` (for Power the chain tests `dBw` before
`dBm`, opposite to the signature; for Velocity it tests `km_per_s`
first), and `initTwo u1 v1 u2 v2` calls the constructor with the `u1`
slot set to `v1` and the `u2` slot to `v2`. -/

def DistanceUnit.arg (u : DistanceUnit) (v : ℚ) (s : DistanceUnit) : Option ℚ :=
  if s = u then some v else none

def DistanceUnit.chainPos : DistanceUnit → ℕ
  | .au => 0 | .km => 1 | .m => 2 | .cm => 3 | .mm => 4

def Distance.initTwo (u1 : DistanceUnit) (v1 : ℚ) (u2 : DistanceUnit) (v2 : ℚ) :
    Except String Distance :=
  Distance.init
    (u1.arg v1 .au <|> u2.arg v2 .au)
    (u1.arg v1 .km <|> u2.arg v2 .km)
    (u1.arg v1 .m <|> u2.arg v2 .m)
    (u1.arg v1 .cm <|> u2.arg v2 .cm)
    (u1.arg v1 .mm <|> u2.arg v2 .mm)

def FrequencyUnit.arg (u : FrequencyUnit) (v : ℚ) (s : FrequencyUnit) : Option ℚ :=
  if s = u then some v else none

def FrequencyUnit.chainPos : FrequencyUnit → ℕ
  | .hz => 0 | .khz => 1 | .mhz => 2 | .ghz => 3

def Frequency.initTwo (u1 : FrequencyUnit) (v1 : ℚ) (u2 : FrequencyUnit) (v2 : ℚ) :
    Except String Frequency :=
  Frequency.init
    (u1.arg v1 .hz <|> u2.arg v2 .hz)
    (u1.arg v1 .khz <|> u2.arg v2 .khz)
    (u1.arg v1 .mhz <|> u2.arg v2 .mhz)
    (u1.arg v1 .ghz <|> u2.arg v2 .ghz)

inductive PowerUnit
  | kw | w | mw | dbw | dbm
deriving DecidableEq

def PowerUnit.arg (u : PowerUnit) (v : ℝ) (s : PowerUnit) : Option ℝ :=
  if s = u then some v else none

/-- Position in `Power.__init__`'s if/elif chain: `kW`, `W`, `mW`, then
`dBw` and only then `dBm` (the signature lists `dBm` before `dBw`). -/
def PowerUnit.chainPos : PowerUnit → ℕ
  | .kw => 0 | .w => 1 | .mw => 2 | .dbw => 3 | .dbm => 4

noncomputable def Power.fromUnit : PowerUnit → ℝ → Power
  | .kw, v => Power.ofkW v
  | .w, v => Power.ofW v
  | .mw, v => Power.ofmW v
  | .dbw, v => Power.ofdBw v
  | .dbm, v => Power.ofdBm v

noncomputable def Power.initTwo (u1 : PowerUnit) (v1 : ℝ) (u2 : PowerUnit) (v2 : ℝ) :
    Except String Power :=
  Power.init
    (u1.arg v1 .kw <|> u2.arg v2 .kw)
    (u1.arg v1 .w <|> u2.arg v2 .w)
    (u1.arg v1 .mw <|> u2.arg v2 .mw)
    (u1.arg v1 .dbm <|> u2.arg v2 .dbm)
    (u1.arg v1 .dbw <|> u2.arg v2 .dbw)

inductive VelocityUnit
  | aupd | kmps
deriving DecidableEq

def VelocityUnit.arg (u : VelocityUnit) (v : ℚ) (s : VelocityUnit) : Option ℚ :=
  if s = u then some v else none

/-- Position in `Velocity.__init__`'s chain: it tests `km_per_s` first. -/
def VelocityUnit.chainPos : VelocityUnit → ℕ
  | .kmps => 0 | .aupd => 1

def Velocity.fromUnit : VelocityUnit → ℚ → Velocity
  | .aupd, v => Velocity.ofAuPerD v
  | .kmps, v => Velocity.ofKmPerS v

def Velocity.initTwo (u1 : VelocityUnit) (v1 : ℚ) (u2 : VelocityUnit) (v2 : ℚ) :
    Except String Velocity :=
  Velocity.init
    (u1.arg v1 .aupd <|> u2.arg v2 .aupd)
    (u1.arg v1 .kmps <|> u2.arg v2 .kmps)

/-! ## Claim theorems -/

/-- C1 (amended): constructing Distance, Frequency, Power, or Velocity with
zero populated inputs raises a ValueError whose message names accepted
parameter names (Distance's omits `cm` and `mm`; Power's misnames the type
as Frequency and says `dB`); Angle constructed with zero populated inputs
raises nothing and is returned with its canonical radians unset; and with
two populated inputs no quantity type raises — the first populated
parameter in the declared if/elif order takes effect and the rest are
ignored.  The first-populated-wins behavior is stated for every ordered
pair of populated inputs of Distance, Frequency, Power and Velocity via
`initTwo` (whichever unit sits earlier in the if/elif chain provides the
instance), and for Angle via the branch-priority equations (an earlier
populated value input fixes `radians` and the stored `_degrees`/`_hours`
attributes regardless of the later ones). -/
theorem construction_zero_and_multi_input_behavior :
    (Distance.init none none none none none
        = .error "to construct a Distance provide au, km, or m")
    ∧ (Frequency.init none none none none
        = .error "to construct a Frequency provide Hz, KHz, MHz, or GHz")
    ∧ (Power.init none none none none none
        = .error "to construct a Frequency provide kW, W, mW, or dB")
    ∧ (Velocity.init none none
        = .error "to construct a Velocity provide au_per_d or km_per_s")
    ∧ (Angle.init none none none none none false).radians = none
    ∧ (∀ (km m cm mm : Option ℚ) (a : ℚ),
        Distance.init (some a) km m cm mm = .ok (Distance.ofAu a))
    ∧ (∀ (khz mhz ghz : Option ℚ) (h : ℚ),
        Frequency.init (some h) khz mhz ghz = .ok (Frequency.ofHz h))
    ∧ (∀ (aupd : Option ℚ) (k : ℚ),
        Velocity.init aupd (some k) = .ok (Velocity.ofKmPerS k))
    ∧ (∀ (u1 u2 : DistanceUnit) (v1 v2 : ℚ),
        Distance.initTwo u1 v1 u2 v2
          = .ok (if u1.chainPos ≤ u2.chainPos
                 then Distance.fromUnit u1 v1 else Distance.fromUnit u2 v2))
    ∧ (∀ (u1 u2 : FrequencyUnit) (v1 v2 : ℚ),
        Frequency.initTwo u1 v1 u2 v2
          = .ok (if u1.chainPos ≤ u2.chainPos
                 then Frequency.fromUnit u1 v1 else Frequency.fromUnit u2 v2))
    ∧ (∀ (u1 u2 : PowerUnit) (v1 v2 : ℝ),
        Power.initTwo u1 v1 u2 v2
          = .ok (if u1.chainPos ≤ u2.chainPos
                 then Power.fromUnit u1 v1 else Power.fromUnit u2 v2))
    ∧ (∀ (u1 u2 : VelocityUnit) (v1 v2 : ℚ),
        Velocity.initTwo u1 v1 u2 v2
          = .ok (if u1.chainPos ≤ u2.chainPos
                 then Velocity.fromUnit u1 v1 else Velocity.fromUnit u2 v2))
    ∧ (∀ (b : Angle) (r d h : Option ℚ) (s : Bool),
        (Angle.init (some b) r d h none s).radians = b.radians
        ∧ (Angle.init (some b) r d h none s).degC = none
        ∧ (Angle.init (some b) r d h none s).hrsC = none)
    ∧ (∀ (d h : Option ℚ) (r : ℚ) (s : Bool),
        (Angle.init none (some r) d h none s).radians = some r
        ∧ (Angle.init none (some r) d h none s).degC = none
        ∧ (Angle.init none (some r) d h none s).hrsC = none)
    ∧ (∀ (h : Option ℚ) (d : ℚ) (s : Bool),
        (Angle.init none none (some d) h none s).radians = some (d / 360 * tau)
        ∧ (Angle.init none none (some d) h none s).degC = some d
        ∧ (Angle.init none none (some d) h none s).hrsC = none) := by
  refine ⟨rfl, rfl, rfl, rfl, rfl, ?_, ?_, ?_, ?_, ?_, ?_, ?_, ?_, ?_, ?_⟩
  · intros; rfl
  · intros; rfl
  · intros; rfl
  · intro u1 u2 v1 v2
    cases u1 <;> cases u2 <;> rfl
  · intro u1 u2 v1 v2
    cases u1 <;> cases u2 <;> rfl
  · intro u1 u2 v1 v2
    cases u1 <;> cases u2 <;> rfl
  · intro u1 u2 v1 v2
    cases u1 <;> cases u2 <;> rfl
  · intro b r d h s
    exact ⟨rfl, rfl, rfl⟩
  · intro d h r s
    exact ⟨rfl, rfl, rfl⟩
  · intro h d s
    exact ⟨rfl, rfl, rfl⟩

/-- C1 counterexample: constructing a Distance with two populated inputs
(`au=1` and `km=2`) does not raise; it returns the au-built instance and
silently ignores `km`. -/
theorem distance_two_inputs_constructs :
    Distance.init (some 1) (some 2) none none none = .ok (Distance.ofAu 1)
    ∧ ∀ msg, Distance.init (some 1) (some 2) none none none ≠ .error msg :=
  ⟨rfl, fun _ h => nomatch h⟩

/-- C2: for every positive wavelength `w`, a Frequency built from the
(spec-modelled) `wavelengthMeters` input alone succeeds and its hertz view
is `C / w`; its stored wavelength round-trips to `w`. -/
theorem frequency_from_wavelength_hertz (w : ℚ) (hw : 0 < w) :
    Frequency.initSpec none none none none (some w) = .ok (Frequency.fromWavelength w)
    ∧ (Frequency.fromWavelength w).Hz = C / w
    ∧ (Frequency.fromWavelength w).wl = w := by
  refine ⟨rfl, rfl, ?_⟩
  show C / (C / w) = w
  field_simp [show (C : ℚ) ≠ 0 by norm_num [C], ne_of_gt hw]

/-- C2 witness: the theorem applied at the concrete wavelength 2. -/
theorem frequency_from_wavelength_hertz_witness :
    (0 : ℚ) < 2 ∧ (Frequency.fromWavelength 2).Hz = C / 2 :=
  ⟨by norm_num, (frequency_from_wavelength_hertz 2 (by norm_num)).2.1⟩

/-- C3: the (spec-modelled) Gain type is constructible from exactly one of
the linear ratio `a` or `dB`, with canonical magnitude the linear ratio and
the logarithmic pair `a = 10^(dB/10)`, `dB = 10*log10(a)`; the
(spec-modelled) Temperature type is constructible from exactly one of `k`,
`c`, `f`, with canonical magnitude Kelvin and views `c = k - 273.15`,
`f = (k - 273.15)*9/5 + 32`. -/
theorem gain_temperature_quantities :
    (∀ v : ℝ, Gain.init (some v) none = .ok (Gain.ofLinear v)
        ∧ (Gain.ofLinear v).a = v
        ∧ (Gain.ofLinear v).dB = 10 * Real.logb 10 v)
    ∧ (∀ d : ℝ, Gain.init none (some d) = .ok (Gain.ofdB d)
        ∧ (Gain.ofdB d).a = (10 : ℝ) ^ (d / 10)
        ∧ (Gain.ofdB d).dB = d)
    ∧ (∃ e, Gain.init none none = .error e)
    ∧ (∀ v d : ℝ, ∃ e, Gain.init (some v) (some d) = .error e)
    ∧ (∀ v : ℚ, Temperature.init (some v) none none = .ok (Temperature.ofK v)
        ∧ (Temperature.ofK v).k = v
        ∧ (Temperature.ofK v).c = v - 27315 / 100
        ∧ (Temperature.ofK v).f = (v - 27315 / 100) * 9 / 5 + 32)
    ∧ (∀ v : ℚ, Temperature.init none (some v) none = .ok (Temperature.ofC v)
        ∧ (Temperature.ofC v).k = v + 27315 / 100 ∧ (Temperature.ofC v).c = v)
    ∧ (∀ v : ℚ, Temperature.init none none (some v) = .ok (Temperature.ofF v)
        ∧ (Temperature.ofF v).k = (v - 32) * 5 / 9 + 27315 / 100
        ∧ (Temperature.ofF v).f = v)
    ∧ (∃ e, Temperature.init none none none = .error e)
    ∧ (∀ v w : ℚ, ∃ e, Temperature.init (some v) (some w) none = .error e)
    ∧ (Temperature.ofK (27315 / 100)).c = 0
    ∧ (Temperature.ofK (27315 / 100)).f = 32 := by
  refine ⟨fun v => ⟨rfl, rfl, rfl⟩, fun d => ⟨rfl, rfl, rfl⟩, ⟨_, rfl⟩,
    fun v d => ⟨_, rfl⟩, fun v => ⟨rfl, rfl, rfl, rfl⟩, fun v => ⟨rfl, rfl, rfl⟩,
    fun v => ⟨rfl, rfl, rfl⟩, ⟨_, rfl⟩, fun v w => ⟨_, rfl⟩, ?_, ?_⟩
  · show (27315 / 100 : ℚ) - 27315 / 100 = 0
    norm_num
  · show ((27315 / 100 : ℚ) - 27315 / 100) * 9 / 5 + 32 = 32
    norm_num

/-- C4: an Angle built from `degrees=q` has preference `degrees`; its
guarded degrees accessor returns `q`, its guarded hours accessor fails
with the WrongUnitError message naming the actual preference (`degrees`)
and the `_hours` attribute to use instead, while the unguarded `_hours`
accessor succeeds (with `q/15`); symmetrically for an Angle built from
`hours=q`; in particular `Angle(degrees=10.0).degrees` returns 10. -/
theorem angle_preference_guard :
    (∀ q : ℚ,
      (Angle.init none none (some q) none none false).preference = "degrees"
      ∧ (Angle.init none none (some q) none none false).degreesView = .ok (some q)
      ∧ (Angle.init none none (some q) none none false).hoursView
          = .error (wrongUnitMessage "hours")
      ∧ (Angle.init none none (some q) none none false).uhours = some (q / 15))
    ∧ (∀ q : ℚ,
      (Angle.init none none none (some q) none false).preference = "hours"
      ∧ (Angle.init none none none (some q) none false).hoursView = .ok (some q)
      ∧ (Angle.init none none none (some q) none false).degreesView
          = .error (wrongUnitMessage "degrees")
      ∧ (Angle.init none none none (some q) none false).udegrees = some (15 * q))
    ∧ wrongUnitMessage "hours"
        = "this angle is usually expressed in degrees, not hours; if you want to use hours anyway, then please use the attribute _hours"
    ∧ wrongUnitMessage "degrees"
        = "this angle is usually expressed in hours, not degrees; if you want to use degrees anyway, then please use the attribute _degrees"
    ∧ (Angle.init none none (some 10) none none false).degreesView = .ok (some 10) := by
  refine ⟨fun q => ⟨rfl, rfl, rfl, ?_⟩, fun q => ⟨rfl, rfl, rfl, ?_⟩,
    by decide, by decide, rfl⟩
  · show some (q / 360 * tau * 24 / tau) = some (q / 15)
    exact congrArg some (by rw [tau]; ring)
  · show some (q / 24 * tau * 360 / tau) = some (15 * q)
    exact congrArg some (by rw [tau]; ring)

/-- C5: the display decomposition `_sexagesimalize_to_int` computes
`n = ⌊v*3600*10^p + 1/2⌋` (half-up rounding: `n` is within 1/2 of
`v*3600*10^p`), takes its sign, and splits `|n|` by successive division by
`10^p`, 60 and 60 into fraction, seconds, minutes and whole units that
recompose exactly to `|n|`; the float-domain `_sexagesimalize_to_float` of
12.05125 is `(+1, 12, 3, 4.5)`; and 181.875 degrees at display precision 1
formats as `181deg 52' 30.0"`, both directly and through `Angle.dstr`. -/
theorem sexagesimal_decomposition :
    (∀ (v : ℚ) (places : ℕ),
      (sexagesimalizeToInt v places).sign
          = Int.sign (Int.floor (((10 ^ places : ℕ) : ℚ) * 3600 * v + 1 / 2))
      ∧ |((Int.floor (((10 ^ places : ℕ) : ℚ) * 3600 * v + 1 / 2) : ℤ) : ℚ)
            - ((10 ^ places : ℕ) : ℚ) * 3600 * v| ≤ 1 / 2
      ∧ (sexagesimalizeToInt v places).fraction < 10 ^ places
      ∧ (sexagesimalizeToInt v places).seconds < 60
      ∧ (sexagesimalizeToInt v places).minutes < 60
      ∧ (((sexagesimalizeToInt v places).whole * 60 + (sexagesimalizeToInt v places).minutes) * 60
            + (sexagesimalizeToInt v places).seconds) * 10 ^ places
          + (sexagesimalizeToInt v places).fraction
        = (Int.floor (((10 ^ places : ℕ) : ℚ) * 3600 * v + 1 / 2)).natAbs)
    ∧ sexagesimalizeToFloat (1205125 / 100000) = (1, 12, 3, 9 / 2)
    ∧ sfmtD (181875 / 1000) 1 = "181deg 52\x27 30.0\""
    ∧ (Angle.init none none (some (181875 / 1000)) none none false).dstr 1
        = .ok (some "181deg 52\x27 30.0\"") := by
  have hsex : sexagesimalizeToInt (181875 / 1000) 1 = ⟨1, 181, 52, 30, 0⟩ := by
    simp only [sexagesimalizeToInt]
    norm_num [Sexa.mk.injEq]
    decide
  have hfmt : sfmtD (181875 / 1000) 1 = "181deg 52\x27 30.0\"" := by
    rw [sfmtD, hsex]
    decide
  refine ⟨?_, ?_, hfmt, ?_⟩
  · intro v places
    have hpow : 0 < 10 ^ places := pow_pos (by norm_num) places
    set x : ℚ := ((10 ^ places : ℕ) : ℚ) * 3600 * v with hx
    set n : ℤ := Int.floor (x + 1 / 2) with hn
    set m0 : ℕ := n.natAbs with hm0
    refine ⟨rfl, ?_, ?_, ?_, ?_, ?_⟩
    · have h1 : (n : ℚ) ≤ x + 1 / 2 := Int.floor_le _
      have h2 : x + 1 / 2 < (n : ℚ) + 1 := Int.lt_floor_add_one _
      rw [abs_le]
      constructor <;> linarith
    · exact Nat.mod_lt _ hpow
    · exact Nat.mod_lt _ (by norm_num)
    · exact Nat.mod_lt _ (by norm_num)
    · show ((m0 / 10 ^ places / 60 / 60 * 60 + m0 / 10 ^ places / 60 % 60) * 60
          + m0 / 10 ^ places % 60) * 10 ^ places + m0 % 10 ^ places = m0
      have e1 := Nat.div_add_mod (m0 / 10 ^ places / 60) 60
      have e2 := Nat.div_add_mod (m0 / 10 ^ places) 60
      have e3 := Nat.div_add_mod m0 (10 ^ places)
      calc ((m0 / 10 ^ places / 60 / 60 * 60 + m0 / 10 ^ places / 60 % 60) * 60
              + m0 / 10 ^ places % 60) * 10 ^ places + m0 % 10 ^ places
          = ((m0 / 10 ^ places / 60) * 60 + m0 / 10 ^ places % 60) * 10 ^ places
              + m0 % 10 ^ places := by
            rw [mul_comm (m0 / 10 ^ places / 60 / 60) 60, e1]
        _ = (m0 / 10 ^ places) * 10 ^ places + m0 % 10 ^ places := by
            rw [mul_comm (m0 / 10 ^ places / 60) 60, e2]
        _ = m0 := by rw [mul_comm (m0 / 10 ^ places) (10 ^ places), e3]
  · have h0 : |(1205125 / 100000 : ℚ)| = 1205125 / 100000 := abs_of_pos (by norm_num)
    simp only [sexagesimalizeToFloat, h0]
    norm_num
  · have : (Angle.init none none (some (181875 / 1000)) none none false).dstr 1
        = .ok (some (sfmtD (181875 / 1000) 1)) := rfl
    rw [this, hfmt]

/-- C6: a Power built from `dBw=x` has `W = 10^(x/10)`; the `dBm` pair is
milliwatt-referenced: construction uses `10^((x-30)/10)` and the view uses
`10*log10(W) + 30`; in particular `Power(dBw=0).W = 1` and
`Power(W=1).dBm = 30`. -/
theorem power_logarithmic_units :
    (∀ x : ℝ, Power.init none none none none (some x) = .ok (Power.ofdBw x)
        ∧ (Power.ofdBw x).W = (10 : ℝ) ^ (x / 10))
    ∧ (∀ x : ℝ, Power.init none none none (some x) none = .ok (Power.ofdBm x)
        ∧ (Power.ofdBm x).W = (10 : ℝ) ^ ((x - 30) / 10))
    ∧ (∀ w : ℝ, (Power.ofW w).dBm = 10 * Real.logb 10 w + 30)
    ∧ (∀ w : ℝ, (Power.ofW w).dBw = 10 * Real.logb 10 w)
    ∧ (Power.ofdBw 0).W = 1
    ∧ (Power.ofW 1).dBm = 30 := by
  refine ⟨fun x => ⟨rfl, rfl⟩, fun x => ⟨rfl, rfl⟩, fun w => rfl, fun w => rfl, ?_, ?_⟩
  · simp [Power.ofdBw, zero_div, Real.rpow_zero]
  · simp [Power.ofW, Power.dBm, Real.logb_one]

/-- C7: for every linear unit of each quantity type, constructing from a
value and reading the same unit back returns the value exactly (hence
within any tolerance); for Distance this holds both through the stored
attribute and through the pure conversion from the canonical meters; in
particular `Distance(km=1)` reads `m = 1000`, `km = 1`, `cm = 100000`,
`mm = 1000000`. -/
theorem linear_unit_round_trip :
    (∀ (u : DistanceUnit) (v : ℚ), (Distance.fromUnit u v).view u = v
        ∧ Distance.viewOfCanonical (Distance.fromUnit u v).m u = v)
    ∧ (∀ (u : FrequencyUnit) (v : ℚ), (Frequency.fromUnit u v).view u = v)
    ∧ (∀ v : ℚ, (Frequency.ofHz v).GHz * 1000000000 = v
        ∧ (Frequency.ofKHz v).GHz * 1000000 = v
        ∧ (Frequency.ofMHz v).GHz * 1000 = v)
    ∧ (∀ v : ℚ, (Velocity.ofAuPerD v).au_per_d = v
        ∧ (Velocity.ofKmPerS v).km_per_s = v
        ∧ (Velocity.ofKmPerS v).au_per_d * (AU_KM / DAY_S) = v)
    ∧ (∀ v : ℝ, (Power.ofkW v).kW = v ∧ (Power.ofW v).W = v ∧ (Power.ofmW v).mW = v)
    ∧ (∀ v : ℚ, (Angle.init none (some v) none none none false).radians = some v)
    ∧ ((Distance.ofKm 1).m = 1000 ∧ (Distance.ofKm 1).km = 1
        ∧ (Distance.ofKm 1).cm = 100000 ∧ (Distance.ofKm 1).mm = 1000000)
    ∧ Distance.init none (some 1) none none none = .ok (Distance.ofKm 1) := by
  refine ⟨?_, ?_, ?_, ?_, fun v => ⟨rfl, rfl, rfl⟩, fun v => rfl, ⟨?_, rfl, ?_, ?_⟩, rfl⟩
  · intro u v
    cases u <;> refine ⟨rfl, ?_⟩
    · show v * AU_M / AU_M = v
      rw [mul_div_assoc, div_self (by norm_num [AU_M]), mul_one]
    · show v * 1000 * (1 / 1000) = v
      ring
    · rfl
    · show v / 100 * 100 = v
      ring
    · show v / 1000 * 1000 = v
      ring
  · intro u v
    cases u <;> rfl
  · intro v
    refine ⟨?_, ?_, ?_⟩ <;> show v / _ * _ = v <;> ring
  · intro v
    refine ⟨rfl, rfl, ?_⟩
    show v * DAY_S / AU_KM * (AU_KM / DAY_S) = v
    rw [AU_KM, DAY_S]
    ring
  · show (1 : ℚ) * 1000 = 1000
    norm_num
  · show (1 : ℚ) * 1000 * 100 = 100000
    norm_num
  · show (1 : ℚ) * 1000 * 1000 = 1000000
    norm_num

/-- C8: Rate's per-hour, per-minute and per-second views divide the
canonical per-day value by 24, 1440 and 86400; AngleRate scales its
radians-per-day value by 360/τ, 21600/τ, 1296000/τ and 1.296e9/τ into a
Rate, which then performs the time-denominator division — a two-stage
composition. -/
theorem rate_angle_rate_views :
    ∀ r : ℚ,
    (Rate.from_per_day r).per_hour = r / 24
    ∧ (Rate.from_per_day r).per_minute = r / 1440
    ∧ (Rate.from_per_day r).per_second = r / 86400
    ∧ (AngleRate.from_radians_per_day r).radians = Rate.from_per_day r
    ∧ (AngleRate.from_radians_per_day r).degrees = Rate.from_per_day (r * (360 / tau))
    ∧ (AngleRate.from_radians_per_day r).arcminutes = Rate.from_per_day (r * (21600 / tau))
    ∧ (AngleRate.from_radians_per_day r).arcseconds = Rate.from_per_day (r * (1296000 / tau))
    ∧ (AngleRate.from_radians_per_day r).mas = Rate.from_per_day (r * (1296000000 / tau))
    ∧ (AngleRate.from_radians_per_day r).degrees.per_hour = r * (360 / tau) / 24
    ∧ (AngleRate.from_radians_per_day r).arcseconds.per_second = r * (1296000 / tau) / 86400 := by
  intro r
  refine ⟨rfl, rfl, rfl, rfl, ?_, ?_, ?_, ?_, ?_, ?_⟩ <;>
    simp only [AngleRate.degrees, AngleRate.arcminutes, AngleRate.arcseconds, AngleRate.mas,
      AngleRate.from_radians_per_day, Rate.from_per_day, Rate.per_hour, Rate.per_second,
      Rate.mk.injEq] <;> ring

/-- C9 (amended): indexing or iterating a quantity always raises
UnpackingError, but the message lists only the unit accessors whose names
begin with a lowercase letter: all of them for Distance, Velocity and
Angle, all but `W` for Power, and none at all for Frequency. -/
theorem unpacking_error_listing :
    (∀ c : ClassInfo, Unit.getitem c = .error (unpackingMessage c)
        ∧ Unit.iter c = Unit.getitem c)
    ∧ listedAttrs distanceClass = ["au", "cm", "km", "m", "mm"]
    ∧ listedAttrs velocityClass = ["au_per_d", "km_per_s", "m_per_s"]
    ∧ listedAttrs angleClass = ["degrees", "hours", "radians"]
    ∧ listedAttrs powerClass = ["dBm", "dBw", "kW", "mW"]
    ∧ listedAttrs frequencyClass = []
    ∧ unitAccessorNames powerClass = ["W", "dBm", "dBw", "kW", "mW"]
    ∧ unpackingMessage distanceClass
        = "to use this Distance, ask for its value in a particular unit:\n\n    distance.au\n    distance.cm\n    distance.km\n    distance.m\n    distance.mm" := by
  exact ⟨fun c => ⟨rfl, rfl⟩, by decide, by decide, by decide, by decide,
    by decide, by decide, by decide⟩

/-- C9 counterexample: Frequency has four unit accessors (`GHz`, `Hz`,
`KHz`, `MHz`), yet because none of their names starts with a lowercase
letter the UnpackingError message for Frequency lists no accessors at
all. -/
theorem frequency_unpacking_lists_no_accessors :
    unpackingMessage frequencyClass
        = "to use this Frequency, ask for its value in a particular unit:\n\n"
    ∧ listedAttrs frequencyClass = []
    ∧ unitAccessorNames frequencyClass = ["GHz", "Hz", "KHz", "MHz"] := by
  refine ⟨by decide, by decide, by decide⟩

/-- C10: an Angle constructed without an explicit `preference=` argument has
preference `hours` exactly when the `hours=` input was supplied, and
`degrees` in every other case — including construction from `radians=`,
from `degrees=`, and by copying another Angle, even an hours-preferring
one. -/
theorem angle_default_preference :
    (∀ (ang : Option Angle) (r d h : Option ℚ) (s : Bool),
        (Angle.init ang r d h none s).preference
          = if h.isSome then "hours" else "degrees")
    ∧ (Angle.init none none none (some 5) none false).preference = "hours"
    ∧ (Angle.init (some (Angle.init none none none (some 5) none false))
          none none none none false).preference = "degrees"
    ∧ (Angle.init none (some 1) none none none false).preference = "degrees"
    ∧ (Angle.init none none (some 1) none none false).preference = "degrees"
    ∧ (Angle.init none (some 1) none (some 2) none false).preference = "hours" := by
  refine ⟨?_, rfl, rfl, rfl, rfl, rfl⟩
  intro ang r d h s
  cases h <;> rfl

end LinkEng
